import Mathlib

/-!
Verification of the metrics subsystem of the `compex` repository
(`metrics.py`): the comment/docstring stripper and LOC counter, the
cyclomatic-complexity and Halstead aggregators, the maintainability-index
composer, the comment counter, the code-duplication probe and the metrics
facade, shallowly embedded in Lean.  External collaborators (the radon
visitors, the flake8 subprocess) are modelled as explicit oracle
parameters; everything else is translated directly from the source.
-/

/-- Whitespace characters recognised by Python's `\s` (ASCII range) and
by `str.strip`. -/
def isPySpace (c : Char) : Bool :=
  c == ' ' || c == '\t' || c == '\n' || c == '\r' ||
  c == Char.ofNat 11 || c == Char.ofNat 12

/-- The single-quote character, used to recognise triple-quoted docstrings. -/
def squote : Char := Char.ofNat 39

/-- The double-quote character. -/
def dquote : Char := Char.ofNat 34

/-- Length of the maximal run of whitespace starting at position `p`,
the span matched by a greedy `\s*`. -/
def wsRun (s : List Char) (p : Nat) : Nat :=
  ((s.drop p).takeWhile isPySpace).length

/-- Whether `^` matches at position `p` in MULTILINE mode: start of the
string or just after a newline. -/
def atLineStart (s : List Char) (p : Nat) : Bool :=
  p == 0 || (s.getD (p - 1) ' ') == '\n'

/-- Position where the current line ends starting from `q`: the index of
the next newline, or the length of the string.  This is where `.*$`
finishes a match in MULTILINE mode. -/
def lineEndFrom (s : List Char) (q : Nat) : Nat :=
  q + ((s.drop q).takeWhile (fun c => c != '\n')).length

/-- Whether the literal `lit` occurs in `s` starting at position `p`. -/
def litAt (s : List Char) (p : Nat) (lit : List Char) : Bool :=
  ((s.drop p).take lit.length) == lit

/-- Index of the last newline in `l`, if any. -/
def lastNLIdx (l : List Char) : Option Nat :=
  match l.reverse.findIdx? (fun c => c == '\n') with
  | none => none
  | some j => some (l.length - 1 - j)

/-- The substring of `s` from position `p` (inclusive) to `e` (exclusive). -/
def extract (s : List Char) (p e : Nat) : List Char :=
  (s.drop p).take (e - p)

/-- Regex branch `^\s*MARKER.*$` of the stripper pattern (with `MARKER`
being `//` or `#`): a line whose leading whitespace is followed by the
marker.  Since the marker starts with a non-whitespace character, the
greedy backtracking `\s*` can only stop at the end of the whitespace run.
Returns the end position of the match. -/
def branchMarkedLine (s : List Char) (p : Nat) (marker : List Char) : Option Nat :=
  if atLineStart s p then
    let w := wsRun s p
    if litAt s (p + w) marker then some (lineEndFrom s (p + w + marker.length))
    else none
  else none

/-- Regex branch `^\s*$` of the stripper pattern (blank lines).  Greedy
`\s*` then `$`: the whole whitespace run when it reaches the end of the
string, otherwise backtracks to the last newline inside the run (the
character at the end position is not consumed by `$`). -/
def branchBlankLine (s : List Char) (p : Nat) : Option Nat :=
  if atLineStart s p then
    let w := wsRun s p
    if p + w == s.length then some s.length
    else
      match lastNLIdx ((s.drop p).takeWhile isPySpace) with
      | some k => some (p + k)
      | none => none
  else none

/-- Tail `\s*$` of the block-comment branch, evaluated after the closing
`*/` that ends at position `e2`: end of string after the whitespace run,
or the last newline inside the run; `none` when neither applies. -/
def blockTail (s : List Char) (e2 : Nat) : Option Nat :=
  let w := wsRun s e2
  if e2 + w == s.length then some s.length
  else
    match lastNLIdx ((s.drop e2).takeWhile isPySpace) with
    | some k => some (e2 + k)
    | none => none

/-- Lazy search for a closing `*/` from position `q` whose tail `\s*$`
also matches; the lazy `[\s\S]*?` tries closers left to right.  Fuel is
structural so the function evaluates in the kernel. -/
def searchBlockClose (fuel : Nat) (s : List Char) (q : Nat) : Option Nat :=
  match fuel with
  | 0 => none
  | fuel + 1 =>
    if q < s.length then
      if litAt s q ['*', '/'] then
        match blockTail s (q + 2) with
        | some e => some e
        | none => searchBlockClose fuel s (q + 1)
      else searchBlockClose fuel s (q + 1)
    else none

/-- Regex branch `^\s*/\*[\s\S]*?\*/\s*$` of the stripper pattern
(block comments). -/
def branchBlockComment (s : List Char) (p : Nat) : Option Nat :=
  if atLineStart s p then
    let w := wsRun s p
    if litAt s (p + w) ['/', '*'] then
      searchBlockClose (s.length + 1) s (p + w + 2)
    else none
  else none

/-- Whether a triple quote (`"""` or `'''`) occurs at position `q`. -/
def tripleQuoteAt (s : List Char) (q : Nat) : Bool :=
  litAt s q [dquote, dquote, dquote] || litAt s q [squote, squote, squote]

/-- Lazy search for the first closing triple quote at position `q` or
later; returns the position just past it. -/
def searchTripleClose (fuel : Nat) (s : List Char) (q : Nat) : Option Nat :=
  match fuel with
  | 0 => none
  | fuel + 1 =>
    if q < s.length then
      if tripleQuoteAt s q then some (q + 3)
      else searchTripleClose fuel s (q + 1)
    else none

/-- Regex branch `\s*("""|''')[\s\S]*?("""|''')` of the stripper pattern
(Python docstrings); the only branch without a `^` anchor. -/
def branchDocstring (s : List Char) (p : Nat) : Option Nat :=
  let w := wsRun s p
  if tripleQuoteAt s (p + w) then
    searchTripleClose (s.length + 1) s (p + w + 3)
  else none

/-- The combined stripper alternation of `calculate_loc` tried at
position `p`, branches in the order they appear in the source pattern;
returns the end position of the first branch that matches. -/
def locMatchAt (s : List Char) (p : Nat) : Option Nat :=
  match branchMarkedLine s p ['/', '/'] with
  | some e => some e
  | none =>
    match branchMarkedLine s p ['#'] with
    | some e => some e
    | none =>
      match branchBlankLine s p with
      | some e => some e
      | none =>
        match branchBlockComment s p with
        | some e => some e
        | none => branchDocstring s p

/-- The scan loop of `re.sub(pattern, '', code)`: at each position try the
alternation; a non-empty match is dropped from the output and scanning
resumes at its end; an empty match (or no match) copies one character and
advances by one. -/
def subScan (fuel : Nat) (s : List Char) (p : Nat) (acc : List Char) : List Char :=
  match fuel with
  | 0 => acc ++ s.drop p
  | fuel + 1 =>
    if h : p < s.length then
      match locMatchAt s p with
      | some e =>
        if p < e then subScan fuel s e acc
        else subScan fuel s (p + 1) (acc ++ [s.get ⟨p, h⟩])
      | none => subScan fuel s (p + 1) (acc ++ [s.get ⟨p, h⟩])
    else acc

/-- `re.sub(combined_pattern, '', code)` of `calculate_loc`. -/
def stripComments (code : List Char) : List Char :=
  subScan (code.length + 1) code 0 []

/-- Helper for `splitLinesNL`: split on newlines, keeping empty pieces. -/
def splitLinesAux : List Char → List Char → List (List Char)
  | [], cur => [cur.reverse]
  | c :: cs, cur =>
    if c == '\n' then cur.reverse :: splitLinesAux cs []
    else splitLinesAux cs (c :: cur)

/-- Python's `str.splitlines` restricted to `\n` separators: the empty
string gives no lines, and a trailing newline does not produce a final
empty line. -/
def splitLinesNL (l : List Char) : List (List Char) :=
  match l with
  | [] => []
  | _ =>
    let parts := splitLinesAux l []
    match parts.getLast? with
    | some [] => parts.dropLast
    | _ => parts

/-- A codebase snapshot: an insertion-ordered mapping from file path to
file content, as iterated by `dict.values()`. -/
abbrev Snapshot := List (String × String)

/-- Lines of code of one file: strip comments, then count the lines that
remain non-empty after trimming whitespace. -/
def fileLoc (code : List Char) : Nat :=
  ((splitLinesNL (stripComments code)).filter
    (fun l => l.any (fun c => ! isPySpace c))).length

/-- The `calculate_loc` function: total non-blank, non-comment lines
across the snapshot. -/
def calculate_loc (codebase : Snapshot) : Nat :=
  (codebase.map (fun kv => fileLoc kv.2.data)).sum

/-- The comment-counter alternation `(?://.*)|(?:\#.*)|(?:/\*[\s\S]*?\*/)`
of `calculate_comment_count`, tried at position `p`; no MULTILINE
anchors, `.` stops at newlines, the block form is lazy.  Returns the end
position of the match. -/
def ccMatchAt (s : List Char) (p : Nat) : Option Nat :=
  if litAt s p ['/', '/'] then some (lineEndFrom s (p + 2))
  else if litAt s p ['#'] then some (lineEndFrom s (p + 1))
  else if litAt s p ['/', '*'] then
    match searchStarClose (s.length + 1) s (p + 2) with
    | some e => some e
    | none => none
  else none
where
  /-- First closing `*/` at position `q` or later; returns the position
  just past it. -/
  searchStarClose (fuel : Nat) (s : List Char) (q : Nat) : Option Nat :=
    match fuel with
    | 0 => none
    | fuel + 1 =>
      if q < s.length then
        if litAt s q ['*', '/'] then some (q + 2)
        else searchStarClose fuel s (q + 1)
      else none

/-- The `re.findall` scan of `calculate_comment_count`: collect the
non-overlapping matches left to right (every branch consumes at least one
character, so empty matches cannot occur). -/
def commentScan (fuel : Nat) (s : List Char) (p : Nat)
    (acc : List (List Char)) : List (List Char) :=
  match fuel with
  | 0 => acc
  | fuel + 1 =>
    if p < s.length then
      match ccMatchAt s p with
      | some e =>
        if p < e then commentScan fuel s e (acc ++ [extract s p e])
        else commentScan fuel s (p + 1) acc
      | none => commentScan fuel s (p + 1) acc
    else acc

/-- The `calculate_comment_count` function: every regex match is split on
embedded newlines and the total number of resulting fragments across the
snapshot is returned. -/
def calculate_comment_count (codebase : Snapshot) : Nat :=
  ((codebase.map
      (fun kv => commentScan (kv.2.data.length + 1) kv.2.data 0 [])).flatten.map
    (fun m => if m.contains '\n' then m.splitOn '\n' else [m])).flatten.length

/-- Round a rational to the nearest integer, ties to even, as Python's
built-in `round` does on exact values. -/
def roundHalfEven (x : ℚ) : ℤ :=
  let f := Int.floor x
  let r := x - (f : ℚ)
  if r < 1 / 2 then f
  else if 1 / 2 < r then f + 1
  else if f % 2 = 0 then f else f + 1

/-- Python's `round(x, 2)`. -/
def round2 (x : ℚ) : ℚ :=
  ((roundHalfEven (x * 100) : ℚ)) / 100

/-- Python's `int(x)`: truncation toward zero. -/
def pytrunc (x : ℚ) : ℤ :=
  if 0 ≤ x then Int.floor x else Int.ceil x

/-- Result of `calculate_cyclomatic_complexity`: the source returns
either the empty dict `{}` (every file failed) or a float average. -/
inductive CCResult where
  | empty : CCResult
  | avg : ℚ → CCResult
deriving DecidableEq

/-- One iteration of the `try` block of `calculate_cyclomatic_complexity`
for a single file, with `radon.complexity.cc_visit` modelled by the
oracle `ccVisit` (`none` = the visitor raised).  A file that parses but
yields no blocks divides by zero in `total / len(complexities)`; that
exception is caught like a parse error, so the outcome is `none` too. -/
def perFileCC (ccVisit : String → Option (List ℤ)) (code : String) : Option ℚ :=
  match ccVisit code with
  | none => none
  | some blocks =>
    if blocks.length = 0 then none
    else some (round2 ((blocks.sum : ℚ) / (blocks.length : ℚ)))

/-- The `calculate_cyclomatic_complexity` function: per-file averages
rounded to 2 decimals, failures tallied; the empty dict when every file
failed (which includes the empty snapshot, since `0 == 0`), otherwise the
unweighted mean of the per-file averages. -/
def calculate_cyclomatic_complexity (ccVisit : String → Option (List ℤ))
    (codebase : Snapshot) : CCResult :=
  let results := codebase.map (fun kv => perFileCC ccVisit kv.2)
  let complexity := results.filterMap id
  if results.countP (fun o => o.isNone) = codebase.length then CCResult.empty
  else CCResult.avg (complexity.sum / (complexity.length : ℚ))

/-- The five per-file Halstead quantities reported by
`radon.metrics.h_visit(code)[0]`. -/
structure HalsteadRaw where
  length : ℚ
  vocabulary : ℚ
  volume : ℚ
  difficulty : ℚ
  effort : ℚ
deriving DecidableEq

/-- The five accumulated totals returned by `calculate_halstead_metrics`,
named as the keys of its output dict. -/
structure HalsteadTotals where
  halstead_length : ℤ
  halstead_vocabulary : ℤ
  halstead_volume : ℤ
  halstead_difficulty : ℤ
  halstead_effort : ℤ
deriving DecidableEq

/-- The per-file contribution accumulated inside the `try` block:
`int(h.length)`, `int(h.vocabulary)`, and `int(round(·, 2))` of volume,
difficulty and effort. -/
def fileTotals (h : HalsteadRaw) : HalsteadTotals :=
  ⟨pytrunc h.length, pytrunc h.vocabulary, pytrunc (round2 h.volume),
   pytrunc (round2 h.difficulty), pytrunc (round2 h.effort)⟩

/-- Componentwise accumulation of Halstead totals. -/
def addTotals (a b : HalsteadTotals) : HalsteadTotals :=
  ⟨a.halstead_length + b.halstead_length,
   a.halstead_vocabulary + b.halstead_vocabulary,
   a.halstead_volume + b.halstead_volume,
   a.halstead_difficulty + b.halstead_difficulty,
   a.halstead_effort + b.halstead_effort⟩

/-- The `calculate_halstead_metrics` function, with
`radon.metrics.h_visit` modelled by the oracle `hVisit` (`none` = the
visitor raised): sum the per-file (rounded, truncated) quantities over
the successfully parsed files; `none` models the empty dict returned when
every file failed (which includes the empty snapshot). -/
def calculate_halstead_metrics (hVisit : String → Option HalsteadRaw)
    (codebase : Snapshot) : Option HalsteadTotals :=
  let results := codebase.map (fun kv => hVisit kv.2)
  let succ := results.filterMap id
  if results.countP (fun o => o.isNone) = codebase.length then none
  else some ((succ.map fileTotals).foldl addTotals ⟨0, 0, 0, 0, 0⟩)

/-- The clamped maintainability formula computed on the
`halstead_volume > 0 ∧ sloc > 0` branch of
`calculate_maintainability_index`; `math.radians` is multiplication by
`π / 180`. -/
noncomputable def mi_formula (volume complexity sloc comments : ℝ) : ℝ :=
  let sloc_scale := Real.log sloc
  let volume_scale := Real.log volume
  let comments_scale := Real.sqrt (2.46 * (comments * Real.pi / 180))
  let nn_mi :=
    171 * 2
    - 5.2 * volume_scale
    - 0.23 * complexity
    - 16.2 * sloc_scale
    + 50 * Real.sin comments_scale
  min (max 0.0 (nn_mi * 100 / 171.0)) 100.0

/-- The `calculate_maintainability_index` function on numeric inputs:
absent volume propagates to an absent result; non-positive volume or sloc
short-circuits to the maximal score 100.0; otherwise the clamped
formula. -/
noncomputable def calculate_maintainability_index
    (halstead_volume : Option ℝ) (complexity sloc comments : ℝ) : Option ℝ :=
  match halstead_volume with
  | none => none
  | some v =>
    if v ≤ 0 ∨ sloc ≤ 0 then some 100.0
    else some (mi_formula v complexity sloc comments)

/-- Modelled from the spec: `clamp(x, lo, hi)` as used in the §4.6
formula `result = clamp(raw * 100 / 171, 0.0, 100.0)`. -/
noncomputable def clamp (x lo hi : ℝ) : ℝ := min (max x lo) hi

/-- Modelled from the spec: the §4.6 maintainability formula stated in
the spec's own words, to compare with the source embedding. -/
noncomputable def spec_mi (halstead_volume complexity sloc comments : ℝ) : ℝ :=
  clamp ((171 * 2
    - 5.2 * Real.log halstead_volume
    - 0.23 * complexity
    - 16.2 * Real.log sloc
    + 50 * Real.sin (Real.sqrt (2.46 * (comments * Real.pi / 180)))) * 100 / 171)
    0.0 100.0

/-- `calculate_maintainability_index` as actually invoked by
`get_all_metrics`, where the `complexity` argument is whatever
`calculate_cyclomatic_complexity` returned — possibly the empty dict.
Evaluating `0.23 * complexity` with a dict raises a `TypeError`, which
`get_all_metrics` does not catch. -/
noncomputable def mi_dyn (halstead_volume : Option ℝ) (complexity : CCResult)
    (sloc comments : ℝ) : Except String (Option ℝ) :=
  match halstead_volume with
  | none => Except.ok none
  | some v =>
    if v ≤ 0 ∨ sloc ≤ 0 then Except.ok (some 100.0)
    else
      match complexity with
      | CCResult.empty => Except.error "TypeError"
      | CCResult.avg c => Except.ok (some (mi_formula v (c : ℝ) sloc comments))

/-- The flat result mapping built by `get_all_metrics`. -/
structure Metrics where
  LOC : ℕ
  CyclomaticComplexity : CCResult
  HalsteadMetrics : Option HalsteadTotals
  comments : ℕ
  MaintainabilityIndex : Option ℝ
  CodeDuplication : Option ℕ
  coupling : Option ℝ
  cohesion : Option ℝ

/-- The `get_all_metrics` facade: compute LOC, complexity, Halstead and
comment count on the snapshot, extract `halstead_volume` when the key is
present, feed everything into the maintainability composer (whose
`TypeError` propagates), then attach the duplication-probe result
(modelled by the `dup` parameter) and the two permanently-`None`
coupling/cohesion placeholders. -/
noncomputable def get_all_metrics (ccVisit : String → Option (List ℤ))
    (hVisit : String → Option HalsteadRaw) (dup : Option ℕ)
    (codebase : Snapshot) : Except String Metrics :=
  let loc := calculate_loc codebase
  let cc := calculate_cyclomatic_complexity ccVisit codebase
  let hm := calculate_halstead_metrics hVisit codebase
  let comments := calculate_comment_count codebase
  let hv : Option ℝ := hm.map (fun t => (t.halstead_volume : ℝ))
  match mi_dyn hv cc (loc : ℝ) (comments : ℝ) with
  | Except.error e => Except.error e
  | Except.ok mi => Except.ok ⟨loc, cc, hm, comments, mi, dup, none, none⟩

/-- Environment of one `calculate_code_duplication` run: whether
`subprocess.run(['flake8', ...])` finds the binary (it raises
`FileNotFoundError` otherwise), and the standard output it produces when
it does. -/
structure DupEnv where
  flake8_ok : Bool
  flake8_stdout : String

/-- The `calculate_code_duplication` function with an explicit
file-system state (the list of existing paths).
`tempfile.NamedTemporaryFile(delete=False)` first creates `tmpname`.  If
the flake8 binary is present the output is written, read back, the lines
containing the character `D` are counted, and `os.remove` deletes the
temporary file.  If `subprocess.run` raises, the `except` clause returns
`None` — and nothing deletes the file, because `delete=False` and
`os.remove` is only reached on the success path. -/
def calculate_code_duplication (env : DupEnv) (tmpname : String)
    (fs : List String) : Option ℕ × List String :=
  let fs1 := tmpname :: fs
  if env.flake8_ok then
    let cnt := ((splitLinesNL env.flake8_stdout.data).filter
      (fun l => l.contains 'D')).length
    (some cnt, fs1.erase tmpname)
  else
    (none, fs1)

/-- Claim C1: when halstead_volume is present and positive, sloc is
positive and comments is non-negative, `calculate_maintainability_index`
returns exactly the spec's clamped formula
`clamp((171*2 - 5.2*ln(volume) - 0.23*complexity - 16.2*ln(sloc)
+ 50*sin(sqrt(2.46*radians(comments)))) * 100 / 171, 0.0, 100.0)`, with
`comments` converted from degrees by `radians` before the square root. -/
theorem mi_positive_inputs_eq_spec_clamp (v c s m : ℝ)
    (hv : 0 < v) (hs : 0 < s) (hm : 0 ≤ m) :
    calculate_maintainability_index (some v) c s m = some (spec_mi v c s m) := by
  have hcond : ¬ (v ≤ 0 ∨ s ≤ 0) := by push_neg; exact ⟨hv, hs⟩
  simp only [calculate_maintainability_index, if_neg hcond]
  simp only [mi_formula, spec_mi, clamp]
  norm_num [max_comm]

/-- Witness for C1 at the concrete input volume 1, complexity 0, sloc 1,
comments 0. -/
theorem mi_positive_inputs_eq_spec_clamp_witness :
    calculate_maintainability_index (some 1) 0 1 0 = some (spec_mi 1 0 1 0) :=
  mi_positive_inputs_eq_spec_clamp 1 0 1 0 (by norm_num) (by norm_num) (by norm_num)

/-- Claim C2: when halstead_volume is present but non-positive, or sloc
is non-positive — including negative values — the result is exactly
100.0, regardless of complexity and comments. -/
theorem mi_degenerate_returns_100 (v c s m : ℝ) (h : v ≤ 0 ∨ s ≤ 0) :
    calculate_maintainability_index (some v) c s m = some 100.0 := by
  simp only [calculate_maintainability_index, if_pos h]

/-- Witness for C2 at the spec's own example
`calculate_maintainability_index(-5, 3, 10, 2) = 100.0`. -/
theorem mi_degenerate_returns_100_witness :
    calculate_maintainability_index (some (-5)) 3 10 2 = some 100.0 :=
  mi_degenerate_returns_100 (-5) 3 10 2 (Or.inl (by norm_num))

/-- Claim C3: whenever `calculate_maintainability_index` is given a
present halstead_volume (so returns a numeric result), that result lies
in the closed interval [0, 100]. -/
theorem mi_numeric_result_bounded (v c s m r : ℝ)
    (h : calculate_maintainability_index (some v) c s m = some r) :
    0 ≤ r ∧ r ≤ 100 := by
  simp only [calculate_maintainability_index] at h
  by_cases hc : v ≤ 0 ∨ s ≤ 0
  · rw [if_pos hc] at h
    have hr : (100.0 : ℝ) = r := Option.some.inj h
    subst hr
    constructor <;> norm_num
  · rw [if_neg hc] at h
    have hr : mi_formula v c s m = r := Option.some.inj h
    subst hr
    simp only [mi_formula]
    constructor
    · exact le_min (le_trans (by norm_num) (le_max_left (0.0 : ℝ) _)) (by norm_num)
    · exact min_le_of_right_le (by norm_num)

/-- Witness for C3: the bound instantiated through a concrete call. -/
theorem mi_numeric_result_bounded_witness : (0 : ℝ) ≤ 100 ∧ (100 : ℝ) ≤ 100 :=
  mi_numeric_result_bounded (-5) 3 10 2 100
    (by simp only [calculate_maintainability_index]; norm_num)

/-- Claim C8: on the snapshot mapping `a.py` to
`"# comment\n\ndef f():\n    return 1\n"`, `calculate_loc` returns
exactly 2 — the stripper removes the `#` comment line and the blank line,
and the `def f():` and `return 1` lines survive. -/
theorem loc_concrete_snapshot_eq_two :
    calculate_loc [("a.py", "# comment\n\ndef f():\n    return 1\n")] = 2 := by
  decide

/-- Counterexample to claim C9: when the flake8 binary is absent,
`subprocess.run` raises before `os.remove` is reached, the tempfile was
created with `delete=False`, and the `except` clause returns `None`
without deleting it — the temporary file still exists in the final
file-system state. -/
theorem dup_probe_leaks_tmpfile_on_failure :
    "/tmp/metrics_out" ∈
      (calculate_code_duplication ⟨false, ""⟩ "/tmp/metrics_out" []).2 := by
  simp [calculate_code_duplication]

/-- Amended claim C9: the temporary file is deleted on the success path,
but on the failure path where the external flake8 binary is absent it
remains in the final file-system state. -/
theorem dup_probe_removes_tmpfile_only_on_success (env : DupEnv) (tmp : String)
    (fs : List String) (h : tmp ∉ fs) :
    (env.flake8_ok = true → tmp ∉ (calculate_code_duplication env tmp fs).2) ∧
    (env.flake8_ok = false → tmp ∈ (calculate_code_duplication env tmp fs).2) := by
  unfold calculate_code_duplication
  constructor
  · intro hok
    rw [hok]
    simpa [List.erase_cons_head] using h
  · intro hno
    rw [hno]
    simp

/-- Witness for the amended C9 on a concrete successful run. -/
theorem dup_probe_removes_tmpfile_only_on_success_witness :
    ((⟨true, ""⟩ : DupEnv).flake8_ok = true →
      "/tmp/x" ∉ (calculate_code_duplication ⟨true, ""⟩ "/tmp/x" []).2) ∧
    ((⟨true, ""⟩ : DupEnv).flake8_ok = false →
      "/tmp/x" ∈ (calculate_code_duplication ⟨true, ""⟩ "/tmp/x" []).2) :=
  dup_probe_removes_tmpfile_only_on_success ⟨true, ""⟩ "/tmp/x" []
    (List.not_mem_nil "/tmp/x")

/-- Claim C10: on the empty snapshot every metric function is defined and
no division by zero occurs: LOC and the comment count are 0, both
aggregators return their empty markers (the `0 == 0` all-failed guard
fires before the failure-percentage division), and `get_all_metrics`
returns normally with an absent MaintainabilityIndex. -/
theorem empty_snapshot_all_metrics_defined (ccVisit : String → Option (List ℤ))
    (hVisit : String → Option HalsteadRaw) (dup : Option ℕ) :
    calculate_loc [] = 0 ∧
    calculate_comment_count [] = 0 ∧
    calculate_cyclomatic_complexity ccVisit [] = CCResult.empty ∧
    calculate_halstead_metrics hVisit [] = none ∧
    ∃ m : Metrics, get_all_metrics ccVisit hVisit dup [] = Except.ok m ∧
      m.MaintainabilityIndex = none := by
  exact ⟨rfl, rfl, rfl, rfl, ⟨_, rfl, rfl⟩⟩

/-- The zero element of the totals accumulation. -/
theorem addTotals_zero_add (t : HalsteadTotals) : addTotals ⟨0, 0, 0, 0, 0⟩ t = t := by
  cases t
  simp [addTotals]

/-- Adding the zero totals on the right is the identity. -/
theorem addTotals_add_zero (t : HalsteadTotals) : addTotals t ⟨0, 0, 0, 0, 0⟩ = t := by
  cases t
  simp [addTotals]

/-- Accumulation of totals is associative. -/
theorem addTotals_assoc (a b c : HalsteadTotals) :
    addTotals (addTotals a b) c = addTotals a (addTotals b c) := by
  cases a
  cases b
  cases c
  simp [addTotals, add_assoc]

/-- A left fold of `addTotals` from any initial value splits off the
initial value. -/
theorem foldl_addTotals_shift (l : List HalsteadTotals) (init : HalsteadTotals) :
    l.foldl addTotals init = addTotals init (l.foldl addTotals ⟨0, 0, 0, 0, 0⟩) := by
  induction l generalizing init with
  | nil => simp [List.foldl_nil, addTotals_add_zero]
  | cons a l ih =>
    simp only [List.foldl_cons]
    rw [ih (addTotals init a), ih (addTotals ⟨0, 0, 0, 0, 0⟩ a),
      addTotals_zero_add, addTotals_assoc]

/-- The accumulated totals are the componentwise sums. -/
theorem foldl_addTotals_components (l : List HalsteadTotals) :
    l.foldl addTotals ⟨0, 0, 0, 0, 0⟩ =
      ⟨(l.map (fun t => t.halstead_length)).sum,
       (l.map (fun t => t.halstead_vocabulary)).sum,
       (l.map (fun t => t.halstead_volume)).sum,
       (l.map (fun t => t.halstead_difficulty)).sum,
       (l.map (fun t => t.halstead_effort)).sum⟩ := by
  induction l with
  | nil => rfl
  | cons a l ih =>
    rw [List.foldl_cons, foldl_addTotals_shift, addTotals_zero_add, ih]
    simp [addTotals]

/-- When every file's `try` block fails (parse error or zero blocks),
`calculate_cyclomatic_complexity` returns the empty-dict marker. -/
theorem cc_all_perfile_fail (ccVisit : String → Option (List ℤ))
    (codebase : Snapshot)
    (hfail : ∀ kv ∈ codebase, perFileCC ccVisit kv.2 = none) :
    calculate_cyclomatic_complexity ccVisit codebase = CCResult.empty := by
  simp only [calculate_cyclomatic_complexity]
  rw [if_pos]
  rw [List.countP_map]
  rw [List.countP_eq_length.mpr]
  intro kv hkv
  simp [Function.comp, hfail kv hkv]

/-- When every file's `h_visit` raises, `calculate_halstead_metrics`
returns the empty-dict marker. -/
theorem halstead_all_fail (hVisit : String → Option HalsteadRaw)
    (codebase : Snapshot)
    (hfail : ∀ kv ∈ codebase, hVisit kv.2 = none) :
    calculate_halstead_metrics hVisit codebase = none := by
  simp only [calculate_halstead_metrics]
  rw [if_pos]
  rw [List.countP_map]
  rw [List.countP_eq_length.mpr]
  intro kv hkv
  simp [Function.comp, hfail kv hkv]

/-- Claim C4: on a non-empty snapshot where every file fails to parse in
both aggregators, `calculate_cyclomatic_complexity` and
`calculate_halstead_metrics` both return their explicit empty markers,
and `get_all_metrics` completes normally with an absent
MaintainabilityIndex because halstead_volume is absent. -/
theorem all_files_fail_gives_empty_markers_and_absent_mi
    (ccVisit : String → Option (List ℤ)) (hVisit : String → Option HalsteadRaw)
    (dup : Option ℕ) (codebase : Snapshot) (hne : codebase ≠ [])
    (hfail : ∀ kv ∈ codebase, ccVisit kv.2 = none ∧ hVisit kv.2 = none) :
    calculate_cyclomatic_complexity ccVisit codebase = CCResult.empty ∧
    calculate_halstead_metrics hVisit codebase = none ∧
    ∃ m : Metrics, get_all_metrics ccVisit hVisit dup codebase = Except.ok m ∧
      m.MaintainabilityIndex = none := by
  have hcc := cc_all_perfile_fail ccVisit codebase
    (fun kv hkv => by simp [perFileCC, (hfail kv hkv).1])
  have hhm := halstead_all_fail hVisit codebase (fun kv hkv => (hfail kv hkv).2)
  refine ⟨hcc, hhm, ?_⟩
  simp only [get_all_metrics, hhm, hcc, Option.map_none']
  exact ⟨_, rfl, rfl⟩

/-- Witness for C4 on a concrete one-file snapshot with always-failing
visitors. -/
theorem all_files_fail_gives_empty_markers_and_absent_mi_witness :
    calculate_cyclomatic_complexity (fun _ => none) [("a.py", "x")] = CCResult.empty ∧
    calculate_halstead_metrics (fun _ => none) [("a.py", "x")] = none ∧
    ∃ m : Metrics, get_all_metrics (fun _ => none) (fun _ => none) none
        [("a.py", "x")] = Except.ok m ∧ m.MaintainabilityIndex = none :=
  all_files_fail_gives_empty_markers_and_absent_mi _ _ none [("a.py", "x")]
    (by simp) (fun kv _ => ⟨rfl, rfl⟩)

/-- Claim C5: when every file fails the complexity aggregator (here
because `cc_visit` parses but returns zero blocks, so the per-file
average divides by zero and is tallied as a failure) while the Halstead
aggregator succeeds with positive volume and the snapshot has positive
sloc, `get_all_metrics` propagates a `TypeError` from evaluating
`0.23 * {}` in the maintainability formula. -/
theorem empty_cc_dict_with_positive_volume_raises_type_error
    (ccVisit : String → Option (List ℤ)) (hVisit : String → Option HalsteadRaw)
    (dup : Option ℕ) (codebase : Snapshot)
    (hcc : ∀ kv ∈ codebase, ccVisit kv.2 = some ([] : List ℤ))
    (t : HalsteadTotals) (hh : calculate_halstead_metrics hVisit codebase = some t)
    (hv : 0 < t.halstead_volume) (hloc : 0 < calculate_loc codebase) :
    get_all_metrics ccVisit hVisit dup codebase = Except.error "TypeError" := by
  have hccE : calculate_cyclomatic_complexity ccVisit codebase = CCResult.empty :=
    cc_all_perfile_fail ccVisit codebase
      (fun kv hkv => by simp [perFileCC, hcc kv hkv])
  have hcond : ¬ (((t.halstead_volume : ℝ)) ≤ 0 ∨
      ((calculate_loc codebase : ℕ) : ℝ) ≤ 0) := by
    push_neg
    constructor
    · exact_mod_cast hv
    · exact_mod_cast hloc
  simp only [get_all_metrics, hh, hccE, Option.map_some']
  simp only [mi_dyn, if_neg hcond]

/-- Witness for C5: a concrete snapshot with positive sloc, an oracle
that parses every file to zero complexity blocks, and a Halstead oracle
with positive volume. -/
theorem empty_cc_dict_with_positive_volume_raises_type_error_witness :
    get_all_metrics (fun _ => some []) (fun _ => some ⟨10, 5, 100, 3, 300⟩) none
      [("a.py", "x = 1\n")] = Except.error "TypeError" :=
  empty_cc_dict_with_positive_volume_raises_type_error _ _ none _
    (fun _ _ => rfl) ⟨10, 5, 100, 3, 300⟩
    (by
      simp [calculate_halstead_metrics, fileTotals, addTotals, pytrunc, round2,
        roundHalfEven]
      norm_num [Int.fract])
    (by decide) (by decide)

/-- Claim C6: for snapshots `A` and `B` with disjoint key sets, each of
the five Halstead totals computed on the union snapshot `A ++ B` equals
the sum of the corresponding totals computed on `A` and on `B`. -/
theorem halstead_totals_additive_on_disjoint_union
    (hVisit : String → Option HalsteadRaw) (A B : Snapshot)
    (hdisj : ∀ k ∈ A.map Prod.fst, k ∉ B.map Prod.fst)
    (tA tB : HalsteadTotals)
    (hA : calculate_halstead_metrics hVisit A = some tA)
    (hB : calculate_halstead_metrics hVisit B = some tB) :
    calculate_halstead_metrics hVisit (A ++ B) = some (addTotals tA tB) := by
  simp only [calculate_halstead_metrics] at hA hB ⊢
  by_cases gA : (A.map (fun kv => hVisit kv.2)).countP (fun o => o.isNone) = A.length
  · rw [if_pos gA] at hA
    exact absurd hA (by simp)
  rw [if_neg gA] at hA
  by_cases gB : (B.map (fun kv => hVisit kv.2)).countP (fun o => o.isNone) = B.length
  · rw [if_pos gB] at hB
    exact absurd hB (by simp)
  rw [if_neg gB] at hB
  have hunion : ¬ (((A ++ B).map (fun kv => hVisit kv.2)).countP
      (fun o => o.isNone) = (A ++ B).length) := by
    rw [List.map_append, List.countP_append, List.length_append]
    have h1 : (A.map (fun kv => hVisit kv.2)).countP (fun o => o.isNone) ≤ A.length := by
      calc (A.map (fun kv => hVisit kv.2)).countP (fun o => o.isNone)
          ≤ (A.map (fun kv => hVisit kv.2)).length := List.countP_le_length _
        _ = A.length := by simp
    have h2 : (B.map (fun kv => hVisit kv.2)).countP (fun o => o.isNone) ≤ B.length := by
      calc (B.map (fun kv => hVisit kv.2)).countP (fun o => o.isNone)
          ≤ (B.map (fun kv => hVisit kv.2)).length := List.countP_le_length _
        _ = B.length := by simp
    omega
  rw [if_neg hunion]
  have e1 := Option.some.inj hA
  have e2 := Option.some.inj hB
  rw [List.map_append, List.filterMap_append, List.map_append, List.foldl_append,
    foldl_addTotals_shift, e1, e2]

/-- Witness for C6 on two concrete disjoint one-file snapshots. -/
theorem halstead_totals_additive_on_disjoint_union_witness :
    calculate_halstead_metrics
      (fun s => if s = "a" then some ⟨1, 2, 3, 4, 5⟩ else some ⟨10, 20, 30, 40, 50⟩)
      ([("a.py", "a")] ++ [("b.py", "b")]) =
      some (addTotals ⟨1, 2, 3, 4, 5⟩ ⟨10, 20, 30, 40, 50⟩) :=
  halstead_totals_additive_on_disjoint_union _ [("a.py", "a")] [("b.py", "b")]
    (by
      intro k hk
      simp only [List.map_cons, List.map_nil, List.mem_singleton] at hk
      subst hk
      simp)
    ⟨1, 2, 3, 4, 5⟩ ⟨10, 20, 30, 40, 50⟩
    (by
      simp [calculate_halstead_metrics, fileTotals, addTotals, pytrunc, round2,
        roundHalfEven]
      norm_num [Int.fract])
    (by
      simp [calculate_halstead_metrics, fileTotals, addTotals, pytrunc, round2,
        roundHalfEven]
      norm_num [Int.fract])

/-- Claim C7: on a snapshot with at least one successfully-parsed file,
`calculate_halstead_metrics` returns, for each of the five quantities,
the sum over the successfully-parsed files of the per-file value, where
volume, difficulty and effort are first rounded to 2 decimals and all
five are truncated to integers before summing. -/
theorem halstead_sums_per_file_rounded_truncated
    (hVisit : String → Option HalsteadRaw) (codebase : Snapshot)
    (hex : ∃ kv ∈ codebase, (hVisit kv.2).isSome = true) :
    calculate_halstead_metrics hVisit codebase =
      some ⟨(((codebase.map (fun kv => hVisit kv.2)).filterMap id).map
               (fun h => pytrunc h.length)).sum,
            (((codebase.map (fun kv => hVisit kv.2)).filterMap id).map
               (fun h => pytrunc h.vocabulary)).sum,
            (((codebase.map (fun kv => hVisit kv.2)).filterMap id).map
               (fun h => pytrunc (round2 h.volume))).sum,
            (((codebase.map (fun kv => hVisit kv.2)).filterMap id).map
               (fun h => pytrunc (round2 h.difficulty))).sum,
            (((codebase.map (fun kv => hVisit kv.2)).filterMap id).map
               (fun h => pytrunc (round2 h.effort))).sum⟩ := by
  simp only [calculate_halstead_metrics]
  rw [if_neg]
  · rw [foldl_addTotals_components]
    simp [List.map_map, Function.comp_def, fileTotals]
  · intro hall
    have hlen : (codebase.map (fun kv => hVisit kv.2)).length = codebase.length := by
      simp
    rw [← hlen] at hall
    rw [List.countP_eq_length] at hall
    obtain ⟨kv, hkv, hs⟩ := hex
    have hn := hall (hVisit kv.2) (List.mem_map_of_mem _ hkv)
    rw [Option.isSome_iff_exists] at hs
    obtain ⟨v, hv⟩ := hs
    rw [hv] at hn
    simp at hn

/-- Witness for C7 on a concrete one-file snapshot. -/
theorem halstead_sums_per_file_rounded_truncated_witness :
    calculate_halstead_metrics (fun _ => some ⟨10, 5, 1234/10, 37/10, 300⟩)
      [("a.py", "x")] =
      some ⟨((([("a.py", "x")].map
                (fun kv => (fun _ => some (⟨10, 5, 1234/10, 37/10, 300⟩ : HalsteadRaw)) kv.2)).filterMap id).map
               (fun h => pytrunc h.length)).sum,
            ((([("a.py", "x")].map
                (fun kv => (fun _ => some (⟨10, 5, 1234/10, 37/10, 300⟩ : HalsteadRaw)) kv.2)).filterMap id).map
               (fun h => pytrunc h.vocabulary)).sum,
            ((([("a.py", "x")].map
                (fun kv => (fun _ => some (⟨10, 5, 1234/10, 37/10, 300⟩ : HalsteadRaw)) kv.2)).filterMap id).map
               (fun h => pytrunc (round2 h.volume))).sum,
            ((([("a.py", "x")].map
                (fun kv => (fun _ => some (⟨10, 5, 1234/10, 37/10, 300⟩ : HalsteadRaw)) kv.2)).filterMap id).map
               (fun h => pytrunc (round2 h.difficulty))).sum,
            ((([("a.py", "x")].map
                (fun kv => (fun _ => some (⟨10, 5, 1234/10, 37/10, 300⟩ : HalsteadRaw)) kv.2)).filterMap id).map
               (fun h => pytrunc (round2 h.effort))).sum⟩ :=
  halstead_sums_per_file_rounded_truncated _ [("a.py", "x")]
    ⟨("a.py", "x"), by simp, rfl⟩
